import Mathlib

/-!
Verification development for the pomodoro IRC bot (`pomodoro_bot.py`).

The model is a shallow embedding of the `Pomodoro` channel state machine and
the command layer `PomodoroBot.do_pub_pomodoro` / `do_pub_register`, together
with the scheduler (`connection.execute_delayed`) that drives the
self-perpetuating callback chain.

Python dicts are insertion-ordered association lists.  Because the break
callback closes over the *object* `self._current_users` (which `pomodoro_break`
empties in place with `.clear()` while `pomodoro_stop` rebinds the attribute to
a fresh dict, leaving the captured object untouched), user dicts live in an
explicit heap `World.dicts` and are referenced by index; likewise `Pomodoro`
instances live in a heap `World.poms` so that the channel table can be rebound
to a fresh instance while scheduled callbacks keep referencing the old one.

Exceptions do not roll back state in Python, so fallible operations return
`Except (PyErr × World) World`: an error carries the world at the raise point.
-/

/-- A Python dict from nick to goal text (`Pomodoro._current_users`),
as an insertion-ordered association list. -/
abbrev UsersDict := List (String × String)

/-- Python `d[k] = v`: overwrite in place when the key exists, else append. -/
def dictInsert : UsersDict → String → String → UsersDict
  | [], k, v => [(k, v)]
  | (k', v') :: rest, k, v =>
      if k' = k then (k, v) :: rest else (k', v') :: dictInsert rest k v

/-- `Pomodoro._votes`: a dict from proposed mode name to the set of voter
nicks (`set` modelled as a duplicate-free list). -/
abbrev VoteTally := List (String × List String)

/-- Python `set.add`. -/
def setAdd (l : List String) (x : String) : List String :=
  if x ∈ l then l else l ++ [x]

/-- Update the entry for `k` in a vote tally (Python `d[k]` slot assignment
after a successful lookup; the key is known to be present). -/
def tallySet : VoteTally → String → List String → VoteTally
  | [], _, _ => []
  | (k', v') :: rest, k, v =>
      if k' = k then (k, v) :: rest else (k', v') :: tallySet rest k v

/-- The value of `Pomodoro._pomodoro_session`: `False`, `"work"` or
`"break"` (source lines 241, 254, 297, 305). -/
inductive SessionFlag
  | off
  | work
  | brk
deriving DecidableEq, Repr

/-- A `Pomodoro` instance (source lines 234-244).  `usersRef` is the heap
reference held by the attribute `_current_users`; `mode` is `None` until
`initialize_pomodoro` runs. -/
structure PomObj where
  channel : String
  usersRef : Nat
  flag : SessionFlag
  votes : VoteTally
  mode : Option String
deriving DecidableEq, Repr

/-- A callback handed to `connection.execute_delayed`:
`pomodoro_start` (line 256), `pomodoro_break` (line 283) or the end-of-break
closure `callback` (lines 299-309), which captured both `self` (`selfRef`)
and the dict object `self._current_users` (`usersRef`) at schedule time. -/
inductive PendingCall
  | startCb (selfRef : Nat) (mode : String)
  | breakCb (selfRef : Nat) (mode : String)
  | endBreakCb (selfRef : Nat) (usersRef : Nat) (mode : String)
deriving DecidableEq, Repr

/-- A scheduled callback with its absolute fire time in seconds. -/
structure Event where
  fireAt : Nat
  call : PendingCall
deriving DecidableEq, Repr

/-- The global state: wall-clock seconds, the heap of user dicts, the heap of
`Pomodoro` instances, the channel table entry (one channel), the scheduler
queue, and the notices sent so far as (target, text) pairs. -/
structure World where
  time : Nat
  dicts : List UsersDict
  poms : List PomObj
  table : Nat
  pending : List Event
  notices : List (String × String)
deriving DecidableEq, Repr

/-- Dereference a user-dict heap reference. -/
def getDict (w : World) (r : Nat) : UsersDict := (w.dicts[r]?).getD []

/-- Overwrite a user-dict heap cell (no-op on a dangling reference). -/
def setDict (w : World) (r : Nat) (d : UsersDict) : World :=
  { w with dicts := w.dicts.set r d }

/-- Dereference a `Pomodoro` heap reference. -/
def getPom (w : World) (r : Nat) : PomObj :=
  (w.poms[r]?).getD { channel := "", usersRef := 0, flag := .off, votes := [], mode := none }

/-- Overwrite a `Pomodoro` heap cell (no-op on a dangling reference). -/
def setPom (w : World) (r : Nat) (p : PomObj) : World :=
  { w with poms := w.poms.set r p }

/-- `connection.notice(target, text)`. -/
def notify (w : World) (target text : String) : World :=
  { w with notices := w.notices ++ [(target, text)] }

/-- `connection.execute_delayed(delay, fn, args)`. -/
def schedule (w : World) (delay : Nat) (c : PendingCall) : World :=
  { w with pending := w.pending ++ [{ fireAt := w.time + delay, call := c }] }

/-- `Pomodoro._modes` (source line 243): name, (work minutes, break minutes). -/
def modes : List (String × Nat × Nat) :=
  [("fast", (25, 5)), ("long", (50, 10)), ("lazy", (45, 15)), ("test", (1, 1))]

/-- A Python exception escaping an operation.  `registrationError` embeds the
nested class `Pomodoro.RegistrationError` (source lines 351-358); it is never
produced, see `register_nick`. -/
inductive PyErr
  | keyError (key : String)
  | nameError (name : String)
  | registrationError (nickname : String)
deriving DecidableEq, Repr

/-- Allocate a fresh `Pomodoro(connection, channel)` (source lines 237-244):
a fresh empty user dict and a fresh instance in state `off` with empty votes.
Returns the new instance's heap reference. -/
def newPomodoro (w : World) (channel : String) : Nat × World :=
  let dref := w.dicts.length
  let pref := w.poms.length
  (pref,
   { w with
     dicts := w.dicts ++ [[]],
     poms := w.poms ++ [{ channel := channel, usersRef := dref, flag := .off,
                          votes := [], mode := none }] })

/-- Python `str.lower()` restricted to ASCII mode names, written with a
structural `List.map` so it evaluates inside the kernel. -/
def strLower (s : String) : String :=
  String.mk (s.data.map fun c =>
    if 65 ≤ c.toNat ∧ c.toNat ≤ 90 then Char.ofNat (c.toNat + 32) else c)

/-- `Pomodoro.initialize_pomodoro(mode, delay=300)` (source lines 246-256):
lowercase the mode, set `_pomodoro_session = "work"`, reset `_votes`, and
schedule `pomodoro_start(self.mode)` after `delay` seconds. -/
def initialize_pomodoro (w : World) (r : Nat) (mode : String) (delay : Nat) : World :=
  let m := strLower mode
  let w1 := setPom w r { getPom w r with mode := some m, flag := .work, votes := [] }
  schedule w1 delay (.startCb r m)

/-- The start-time label of `pomodoro_start` (source lines 268, 271):
`":" + str(now.tm_min)` with a `0` inserted when the minute is below 10. -/
def startLabel (m : Nat) : String :=
  if 10 ≤ m then ":" ++ toString m else ":0" ++ toString m

/-- The end-time label of `pomodoro_start` (source lines 266-279):
`now_to_end = now.tm_min + work_period` (no modulus), overflow when
`now_to_end % 60 < now.tm_min`, zero-padding when `now_to_end % 60 < 10`;
the non-overflow branches render `now_to_end` itself. -/
def endLabel (m wk : Nat) : String :=
  let now_to_end := m + wk
  let overflow := now_to_end % 60 < m
  let end_above_ten := 10 ≤ now_to_end % 60
  if overflow ∧ end_above_ten then
    ":" ++ toString (now_to_end % 60) ++ " of the next hour."
  else if overflow then
    ":0" ++ toString (now_to_end % 60) ++ " of the next hour."
  else if end_above_ten then
    ":" ++ toString now_to_end ++ "."
  else
    ":0" ++ toString now_to_end ++ "."

/-- `Pomodoro.pomodoro_start(mode)` (source lines 258-285): look up the mode
(`KeyError` on an unknown name), reset `_votes`, announce the start/end
clock labels using the current minute of the hour, and schedule
`pomodoro_break(mode)` after `work_period * 60` seconds.  The source never
assigns `_pomodoro_session` here. -/
def pomodoro_start (w : World) (r : Nat) (mode : String) :
    Except (PyErr × World) World :=
  match modes.lookup mode with
  | none => .error (.keyError mode, w)
  | some md =>
      let work_period := md.fst
      let tm_min := w.time / 60 % 60
      let obj := getPom w r
      let w1 := setPom w r { obj with votes := [] }
      let w2 := notify w1 obj.channel
        ("Pomodoro starts at " ++ startLabel tm_min ++ " and ends at "
          ++ endLabel tm_min work_period)
      .ok (schedule w2 (work_period * 60) (.breakCb r mode))

/-- `Pomodoro.pomodoro_break(mode)` (source lines 287-309): look up the break
length, announce it, empty the dict object `self._current_users` in place
(`.clear()`), set `_pomodoro_session = "break"`, and schedule the end-of-break
closure after `break_period * 60` seconds, capturing the reference to the
user dict being accumulated during the break.  `_votes` is not touched. -/
def pomodoro_break (w : World) (r : Nat) (mode : String) :
    Except (PyErr × World) World :=
  match modes.lookup mode with
  | none => .error (.keyError mode, w)
  | some md =>
      let break_period := md.snd
      let obj := getPom w r
      let w1 := notify w obj.channel (toString break_period ++ " minute break.")
      let w2 := notify w1 obj.channel
        ("Please register for the next pomodoro sometime between now and the next "
          ++ toString break_period ++ " minutes.")
      let w3 := setDict w2 obj.usersRef []
      let w4 := setPom w3 r { obj with flag := .brk }
      .ok (schedule w4 (break_period * 60) (.endBreakCb r obj.usersRef mode))

/-- The end-of-break closure `callback(users)` (source lines 299-309): if the
captured dict object is non-empty, iterate the loop via `pomodoro_start`;
otherwise set `_pomodoro_session = False` and schedule nothing. -/
def break_callback (w : World) (r : Nat) (uref : Nat) (mode : String) :
    Except (PyErr × World) World :=
  match getDict w uref with
  | [] => .ok (setPom w r { getPom w r with flag := .off })
  | _ :: _ => pomodoro_start w r mode

/-- `Pomodoro.pomodoro_stop()` (source lines 311-314): rebind
`self._current_users` to a brand-new empty dict.  The dict object previously
referenced (and captured by any pending end-of-break closure) is NOT emptied. -/
def pomodoro_stop (w : World) (r : Nat) : World :=
  let newRef := w.dicts.length
  let w1 := { w with dicts := w.dicts ++ [[]] }
  setPom w1 r { getPom w1 r with usersRef := newRef }

/-- `Pomodoro.register_nick(nickname, goal)` (source lines 316-325): when a
session is running, insert or overwrite the participant entry (empty goal when
the goal text is falsy).  When no session is running, the source executes
`raise RegistrationError(nickname)` — but the bare name `RegistrationError`
is not in scope there: the class is the nested attribute
`Pomodoro.RegistrationError`, and a Python class body is not an enclosing
scope for its methods, so the raise statement itself fails with
`NameError: name 'RegistrationError' is not defined`. -/
def register_nick (w : World) (r : Nat) (nickname goal : String) :
    Except (PyErr × World) World :=
  let obj := getPom w r
  if obj.flag ≠ .off then
    .ok (setDict w obj.usersRef
      (dictInsert (getDict w obj.usersRef) nickname (if goal ≠ "" then goal else "")))
  else
    .error (.nameError "RegistrationError", w)

/-- `Pomodoro.vote(mode, nickname)` (source lines 327-329):
`self._votes[mode].add(nickname)`.  The subscript raises `KeyError` when
`mode` has no entry; no code path ever inserts a key into `_votes`. -/
def vote (w : World) (r : Nat) (mode nickname : String) :
    Except (PyErr × World) World :=
  let obj := getPom w r
  match obj.votes.lookup mode with
  | none => .error (.keyError mode, w)
  | some voters =>
      .ok (setPom w r { obj with votes := tallySet obj.votes mode (setAdd voters nickname) })

/-- Truthiness of the value returned by `Pomodoro.votes()` (source lines
331-336): the `_votes` dict when non-empty, `False` otherwise. -/
def votes (w : World) (r : Nat) : Bool :=
  !(getPom w r).votes.isEmpty

/-- Truthiness of the expression `session.votes` at source line 104: the
attribute is referenced WITHOUT calling it, so it evaluates to the bound
method object, which is always truthy, whatever the tally holds. -/
def votes_attr_truthy : Bool := true

/-- `Pomodoro.users()` (source lines 338-340). -/
def users (w : World) (r : Nat) : UsersDict :=
  getDict w (getPom w r).usersRef

/-- `Pomodoro.session_running()` (source lines 342-349). -/
def session_running (w : World) (r : Nat) : SessionFlag :=
  (getPom w r).flag

/-- The first mode in the tally whose supporter count reaches the user count:
the `for mode in votes` loop of source lines 124-131, which fires on the
first hit and then breaks. -/
def quorumWinner (vt : VoteTally) (userCount : Nat) : Option String :=
  match vt with
  | [] => none
  | (m, voters) :: rest =>
      if userCount ≤ voters.length then some m else quorumWinner rest userCount

/-- The body of the quorum branch (source lines 126-130): `pomodoro_stop()` on
the old instance, allocate a fresh `Pomodoro` for the channel, swap the
channel-table binding, and `initialize_pomodoro(winner, delay=0)` on it. -/
def force_mode_change (w : World) (winner : String) : World :=
  let r := w.table
  let w1 := pomodoro_stop w r
  let p := newPomodoro w1 (getPom w1 r).channel
  let w2 := { p.snd with table := p.fst }
  initialize_pomodoro w2 p.fst winner 0

/-- `PomodoroBot.do_pub_pomodoro` (source lines 89-148) for a message carrying
a mode argument (the missing-argument usage path of lines 96-102 is omitted).
Line 104 tests `session.session_running() == "break" and not session.votes`;
since `session.votes` is the (always truthy) bound method, the canvassing
branch is never taken.  The on-break branch records a vote (which may raise),
notices the voter, and runs the quorum loop; the idle branch initializes the
session and only then looks the raw argument up in a local `modes` dict for
the announcement, raising `KeyError` on an unknown (or non-lowercase) name. -/
def do_pub_pomodoro (w : World) (nick : String) (modeArg : String) :
    Except (PyErr × World) World :=
  let r := w.table
  if session_running w r = .brk ∧ votes_attr_truthy = false then
    let obj := getPom w r
    let w1 := notify w obj.channel
      (nick ++ " has requested to change the current setting from "
        ++ obj.mode.getD "None" ++ "to " ++ modeArg ++ ".")
    let w2 := notify w1 obj.channel
      ("If you would like to back this change type 'pomodoro " ++ modeArg
        ++ "' otherwise stay silent or type pomodoro <mode> to vote for a different one.")
    .ok (notify w2 obj.channel
      "(Keep in mind you must be registered for the current pomodoro to vote against it.)")
  else if session_running w r = .brk then
    match vote w r modeArg nick with
    | .error e => .error e
    | .ok w1 =>
        let w2 := notify w1 nick "Your vote has been cast."
        match quorumWinner (getPom w2 r).votes (users w2 r).length with
        | none => .ok w2
        | some winner => .ok (force_mode_change w2 winner)
  else if session_running w r = .work then
    .ok (notify w nick "You can't vote to change modes while a work session is running.")
  else
    let w1 := initialize_pomodoro w r modeArg 300
    match modes.lookup modeArg with
    | none => .error (.keyError modeArg, w1)
    | some md =>
        let w2 := notify w1 (getPom w1 r).channel
          (nick ++ " has started a new " ++ modeArg ++ " (" ++ toString md.fst
            ++ ":" ++ toString md.snd
            ++ ") pomodoro session, if you would like to join in type '.register <the thing you are working on>'. Example: .register Programming a Pomodoro IRC Bot.")
        .ok (notify w2 (getPom w2 r).channel "The session will start in five minutes.")

/-- `PomodoroBot.do_pub_register` (source lines 150-176): assemble the goal
text by prepending a space to each argument word, then register when a
session is running, else notice the sender.  The logbook writes are file
I/O outside the session core and are not modelled.  Only `IndexError` is
caught around `register_nick`, so its `NameError` would propagate. -/
def do_pub_register (w : World) (nick : String) (args : List String) :
    Except (PyErr × World) World :=
  let goal := args.foldl (fun g word => g ++ " " ++ word) ""
  let r := w.table
  if session_running w r ≠ .off then
    match register_nick w r nick goal with
    | .error e => .error e
    | .ok w1 => .ok (notify w1 nick "You have registered for the next session.")
  else
    .ok (notify w nick
      "There is no session running. You can start a new one with the 'pomodoro' command. Example: pomodoro fast.")

/-- Dispatch one fired callback to the method it wraps. -/
def runCall (w : World) (c : PendingCall) : Except (PyErr × World) World :=
  match c with
  | .startCb r mode => pomodoro_start w r mode
  | .breakCb r mode => pomodoro_break w r mode
  | .endBreakCb r uref mode => break_callback w r uref mode

/-- Remove the earliest-firing event from the queue (first occurrence on
ties), mirroring the delayed-command priority queue of the IRC scheduler. -/
def takeEarliest : List Event → Option (Event × List Event)
  | [] => none
  | e :: es =>
      match takeEarliest es with
      | none => some (e, [])
      | some (e', es') =>
          if e.fireAt ≤ e'.fireAt then some (e, es) else some (e', e :: es')

/-- Let the scheduler fire the next pending callback, advancing the clock to
its fire time.  With an empty queue, nothing happens: the callback chain has
terminated. -/
def fireNext (w : World) : Except (PyErr × World) World :=
  match takeEarliest w.pending with
  | none => .ok w
  | some (e, rest) => runCall { w with pending := rest, time := e.fireAt } e.call

/-- The world carried by either constructor of a fallible result (Python
state survives an exception unrolled out of a handler). -/
def okWorld : Except (PyErr × World) World → World
  | .ok w => w
  | .error (_, w) => w

/-- The state after `do_join` on a fresh channel (source lines 48-62): a
single `Pomodoro` instance in the table, nothing scheduled, clock at 0. -/
def initWorld : World :=
  let p := newPomodoro
    { time := 0, dicts := [], poms := [], table := 0, pending := [], notices := [] }
    "#test"
  { p.snd with table := p.fst }

/-- Scenario: `.pomodoro fast` from alice on the fresh channel. -/
def w_started : World := okWorld (do_pub_pomodoro initWorld "alice" "fast")

/-- Scenario: then the 300-second registration delay elapses
(`pomodoro_start` fires). -/
def w_working : World := okWorld (fireNext w_started)

/-- Scenario: then the 25-minute work interval elapses
(`pomodoro_break` fires); the channel is on break. -/
def w_break : World := okWorld (fireNext w_working)

/-- Scenario: bob registers during the break. -/
def w_break_reg : World := okWorld (do_pub_register w_break "bob" ["writing", "tests"])

/-- Scenario: then the 5-minute break elapses (the end-of-break closure
fires with bob registered, so `pomodoro_start` runs again). -/
def w_second : World := okWorld (fireNext w_break_reg)

/-- Full cycle with zero registrations: `.pomodoro <m>`, then the
registration delay, the work interval and the break all elapse. -/
def run_c5 (m : String) : Except (PyErr × World) World := do
  let w1 ← do_pub_pomodoro initWorld "alice" m
  let w2 ← fireNext w1
  let w3 ← fireNext w2
  fireNext w3

/-- The on-break world with a vote tally holding an entry, injected directly:
no reachable state has a non-empty `_votes` (nothing ever inserts a key),
so a votes-in-progress precondition can only be examined on a state built
by hand. -/
def wVotes : World :=
  setPom w_break w_break.table
    { getPom w_break w_break.table with votes := [("fast", ["alice"])] }

/-- A working-state world with a vote tally holding an entry, injected
directly (same caveat as `wVotes`), used to examine what
`pomodoro_break` does to a non-empty tally. -/
def w_c8 : World :=
  setPom w_working w_working.table
    { getPom w_working w_working.table with votes := [("lazy", ["alice"])] }

/-- Scenario: mid-break, after bob registered, the quorum branch body
replaces the channel's session with a fresh one started as `long` with
delay 0 (source lines 126-130). -/
def w_replaced : World := force_mode_change w_break_reg "long"

/-- Scenario: the new session's delay-0 start callback fires. -/
def w_new_started : World := okWorld (fireNext w_replaced)

/-- Scenario: the discarded instance's end-of-break callback fires. -/
def w_stale_fired : World := okWorld (fireNext w_new_started)

/-- Two-digit zero-padded rendering of a minute value: the display rule the
spec states for the time labels. -/
def pad2 (n : Nat) : String :=
  if n < 10 then "0" ++ toString n else toString n

/-- Every `Pomodoro` instance on the heap has an empty vote tally. -/
def votesEmpty (w : World) : Prop :=
  ∀ p ∈ w.poms, p.votes = []

/-- The worlds the program can actually be in: the fresh channel, then
closed under the two public commands and under the scheduler firing a
pending callback — both when the operation returns normally and when it
raises (a Python exception does not roll state back, so the world at the
raise point is also reachable). -/
inductive Reachable : World → Prop
  | init : Reachable initWorld
  | pom_ok (nick marg : String) {w w' : World} :
      Reachable w → do_pub_pomodoro w nick marg = .ok w' → Reachable w'
  | pom_err (nick marg : String) {w w' : World} {e : PyErr} :
      Reachable w → do_pub_pomodoro w nick marg = .error (e, w') → Reachable w'
  | reg_ok (nick : String) (args : List String) {w w' : World} :
      Reachable w → do_pub_register w nick args = .ok w' → Reachable w'
  | reg_err (nick : String) (args : List String) {w w' : World} {e : PyErr} :
      Reachable w → do_pub_register w nick args = .error (e, w') → Reachable w'
  | timer_ok {w w' : World} :
      Reachable w → fireNext w = .ok w' → Reachable w'
  | timer_err {w w' : World} {e : PyErr} :
      Reachable w → fireNext w = .error (e, w') → Reachable w'

/-- C1: for mode `fast`, after `.pomodoro fast`, elapse of the registration
delay, elapse of the 25-minute work interval, one registration (bob) during
the break, and elapse of the 5-minute break, the cycle does iterate — the
mode is unchanged and the participants are exactly the break-time
registrants — but `session_running()` reports `"break"`, not a work
interval: `pomodoro_start` never assigns `_pomodoro_session`, so the flag
set at break entry survives into the second work interval, contradicting
the claim (and `session_running`'s own docstring). -/
theorem c1_second_interval_reports_break :
    do_pub_pomodoro initWorld "alice" "fast" = .ok w_started ∧
    fireNext w_started = .ok w_working ∧
    fireNext w_working = .ok w_break ∧
    do_pub_register w_break "bob" ["writing", "tests"] = .ok w_break_reg ∧
    fireNext w_break_reg = .ok w_second ∧
    (getPom w_second w_second.table).mode = some "fast" ∧
    users w_second w_second.table = [("bob", " writing tests")] ∧
    session_running w_second w_second.table = .brk ∧
    SessionFlag.brk ≠ SessionFlag.work :=
  ⟨rfl, rfl, rfl, rfl, rfl, rfl, rfl, rfl, by decide⟩

/-- C2: even on a state where votes are already in progress (built by hand:
no reachable state has one), recording a vote for a proposed mode with no
existing tally entry raises `KeyError` from `self._votes[mode].add(...)`
instead of recording it, so the command aborts before any tally check and
the session is not replaced. -/
theorem c2_vote_recording_keyerror :
    session_running wVotes wVotes.table = .brk ∧
    votes wVotes wVotes.table = true ∧
    vote wVotes wVotes.table "long" "dave" = .error (.keyError "long", wVotes) ∧
    do_pub_pomodoro wVotes "dave" "long" = .error (.keyError "long", wVotes) :=
  ⟨rfl, rfl, rfl, rfl⟩

/-- C3: on break with no votes cast yet, the `.pomodoro long` command does
not announce the proposal: the guard at source line 104 tests the bound
method `session.votes` (not a call), which is always truthy, so the
canvassing branch is dead and the command instead calls `vote`, which
raises `KeyError` on the empty tally — no notice is sent and the world is
left exactly as it was at the raise point. -/
theorem c3_canvass_branch_dead :
    session_running w_break w_break.table = .brk ∧
    votes w_break w_break.table = false ∧
    do_pub_pomodoro w_break "carol" "long" = .error (.keyError "long", w_break) :=
  ⟨rfl, rfl, rfl⟩

/-- C4: `register_nick` while Idle always fails, but with
`NameError: name 'RegistrationError' is not defined` — the raise statement
references the nested class by its bare name, which is not in scope inside
the method — not with `RegistrationError`; in the non-Idle states
(`"work"` during registration and the work interval, `"break"` on break)
it never fails and inserts or overwrites the participant entry. -/
theorem c4_idle_register_raises_nameerror (nickname goal : String) :
    (session_running initWorld initWorld.table = .off ∧
     register_nick initWorld initWorld.table nickname goal =
       .error (.nameError "RegistrationError", initWorld)) ∧
    (session_running w_started w_started.table = .work ∧
     ∃ w', register_nick w_started w_started.table nickname goal = .ok w' ∧
       users w' w'.table = dictInsert (users w_started w_started.table) nickname
         (if goal ≠ "" then goal else "")) ∧
    (session_running w_break w_break.table = .brk ∧
     ∃ w', register_nick w_break w_break.table nickname goal = .ok w' ∧
       users w' w'.table = dictInsert (users w_break w_break.table) nickname
         (if goal ≠ "" then goal else "")) :=
  ⟨⟨rfl, rfl⟩, ⟨rfl, _, rfl, rfl⟩, ⟨rfl, _, rfl, rfl⟩⟩

/-- C5: for every mode, a full cycle with zero registrations — start, elapse
of the registration delay, of the work interval and of the break — ends
with `session_running()` returning `False` and nothing left on the
scheduler queue: the callback chain has terminated. -/
theorem c5_empty_break_ends_idle (name : String) (wk bk : Nat)
    (h : (name, (wk, bk)) ∈ modes) :
    ∃ w', run_c5 name = .ok w' ∧ session_running w' w'.table = .off ∧
      w'.pending = [] := by
  simp only [modes, List.mem_cons, List.not_mem_nil, or_false, Prod.mk.injEq] at h
  rcases h with ⟨h1, -, -⟩ | ⟨h1, -, -⟩ | ⟨h1, -, -⟩ | ⟨h1, -, -⟩ <;> subst h1 <;>
    exact ⟨_, rfl, rfl, rfl⟩

/-- Witness for C5 at the `fast` mode. -/
theorem c5_empty_break_ends_idle_witness :
    ∃ w', run_c5 "fast" = .ok w' ∧ session_running w' w'.table = .off ∧
      w'.pending = [] :=
  c5_empty_break_ends_idle "fast" 25 5 (by decide)

/-- C6: when the quorum branch body replaces the session mid-break, the
end-of-break callback still pending against the discarded instance is not
a no-op when it fires: it reads the dict object captured at break entry —
which `pomodoro_stop` left populated, having rebound `_current_users` to a
fresh dict instead of emptying the captured one — finds bob there, and
runs `pomodoro_start` on the stale instance, sending a channel notice and
scheduling a further callback against it. -/
theorem c6_stale_callback_not_noop :
    w_replaced.table = 1 ∧
    { fireAt := 2100, call := PendingCall.endBreakCb 0 0 "fast" } ∈ w_replaced.pending ∧
    fireNext w_replaced = .ok w_new_started ∧
    getDict w_new_started 0 = [("bob", " writing tests")] ∧
    fireNext w_new_started = .ok w_stale_fired ∧
    w_stale_fired.notices = w_new_started.notices ++
      [("#test", "Pomodoro starts at :35 and ends at :00 of the next hour.")] ∧
    { fireAt := 3600, call := PendingCall.breakCb 0 "fast" } ∈ w_stale_fired.pending :=
  ⟨rfl, by decide, rfl, rfl, rfl, rfl, by decide⟩

/-- C9: an unknown mode name is not surfaced as a single notice: the idle
branch first initializes the session (setting the flag to `"work"` and
scheduling a start callback that will itself raise `KeyError`) and then
raises an uncaught `KeyError` at the announcement's `modes[mode]` lookup —
`on_pubmsg` catches only `IndexError` — with no notice sent to anyone.
Known-name lookup is lowercased only inside `initialize_pomodoro`; the
announcement lookup is case-sensitive, so `.pomodoro FAST` raises too. -/
theorem c9_unknown_mode_uncaught_keyerror :
    (∃ w', do_pub_pomodoro initWorld "alice" "foo" = .error (.keyError "foo", w') ∧
      w'.notices = [] ∧
      session_running w' w'.table = .work ∧
      (getPom w' w'.table).mode = some "foo" ∧
      w'.pending = [{ fireAt := 300, call := .startCb 0 "foo" }] ∧
      ∃ w'', fireNext w' = .error (.keyError "foo", w'')) ∧
    (∃ w', do_pub_pomodoro initWorld "alice" "FAST" = .error (.keyError "FAST", w') ∧
      (getPom w' w'.table).mode = some "fast") :=
  ⟨⟨_, rfl, rfl, rfl, rfl, rfl, _, rfl⟩, ⟨_, rfl, rfl⟩⟩

/-- Counterexample to C8 as stated: `pomodoro_break` does not clear the
vote tally — applied to a state carrying a non-empty `_votes` (built by
hand), the tally survives the transition unchanged. -/
theorem c8_break_keeps_votes :
    ∃ w', pomodoro_break w_c8 w_c8.table "fast" = .ok w' ∧
      (getPom w' w'.table).votes = [("lazy", ["alice"])] :=
  ⟨_, rfl, rfl⟩

/-- C7: for every minute-of-hour `m < 60` and every mode work length, the
announced end minute is `(m + w) % 60`, the end label carries the
"of the next hour" suffix exactly when that minute is below `m`, minutes
below 10 are zero-padded, and the two concrete examples of the spec hold
(the labels carry the sentence-final period of the announcement text). -/
theorem c7_time_labels (m : Nat) (hm : m < 60) (name : String) (wk bk : Nat)
    (hmode : (name, (wk, bk)) ∈ modes) :
    (startLabel m = ":" ++ pad2 m ∧
     endLabel m wk = ":" ++ pad2 ((m + wk) % 60) ++
       (if (m + wk) % 60 < m then " of the next hour." else ".")) ∧
    endLabel 55 10 = ":05 of the next hour." ∧
    (startLabel 7 = ":07" ∧ endLabel 7 5 = ":12.") := by
  have key : ∀ m' < 60, ∀ wk' ∈ [25, 50, 45, 1],
      startLabel m' = ":" ++ pad2 m' ∧
      endLabel m' wk' = ":" ++ pad2 ((m' + wk') % 60) ++
        (if (m' + wk') % 60 < m' then " of the next hour." else ".") := by decide
  have hw : wk ∈ [25, 50, 45, 1] := by
    simp only [modes, List.mem_cons, List.not_mem_nil, or_false, Prod.mk.injEq] at hmode
    rcases hmode with ⟨-, h2, -⟩ | ⟨-, h2, -⟩ | ⟨-, h2, -⟩ | ⟨-, h2, -⟩ <;> subst h2 <;>
      decide
  exact ⟨key m hm wk hw, by decide, by decide⟩

/-- Witness for C7 at minute 7 with the `fast` mode. -/
theorem c7_time_labels_witness :
    (startLabel 7 = ":" ++ pad2 7 ∧
     endLabel 7 25 = ":" ++ pad2 ((7 + 25) % 60) ++
       (if (7 + 25) % 60 < 7 then " of the next hour." else ".")) ∧
    endLabel 55 10 = ":05 of the next hour." ∧
    (startLabel 7 = ":07" ∧ endLabel 7 5 = ":12.") :=
  c7_time_labels 7 (by decide) "fast" 25 5 (by decide)

theorem dicts_notify (w : World) (t s : String) : (notify w t s).dicts = w.dicts := rfl

theorem dicts_schedule (w : World) (d : Nat) (c : PendingCall) :
    (schedule w d c).dicts = w.dicts := rfl

theorem dicts_setPom (w : World) (r : Nat) (p : PomObj) :
    (setPom w r p).dicts = w.dicts := rfl

theorem poms_notify (w : World) (t s : String) : (notify w t s).poms = w.poms := rfl

theorem poms_schedule (w : World) (d : Nat) (c : PendingCall) :
    (schedule w d c).poms = w.poms := rfl

theorem poms_setDict (w : World) (r : Nat) (d : UsersDict) :
    (setDict w r d).poms = w.poms := rfl

theorem time_notify (w : World) (t s : String) : (notify w t s).time = w.time := rfl

theorem time_setDict (w : World) (r : Nat) (d : UsersDict) :
    (setDict w r d).time = w.time := rfl

theorem time_setPom (w : World) (r : Nat) (p : PomObj) :
    (setPom w r p).time = w.time := rfl

theorem pending_notify (w : World) (t s : String) :
    (notify w t s).pending = w.pending := rfl

theorem pending_setDict (w : World) (r : Nat) (d : UsersDict) :
    (setDict w r d).pending = w.pending := rfl

theorem pending_setPom (w : World) (r : Nat) (p : PomObj) :
    (setPom w r p).pending = w.pending := rfl

theorem notices_setDict (w : World) (r : Nat) (d : UsersDict) :
    (setDict w r d).notices = w.notices := rfl

theorem notices_setPom (w : World) (r : Nat) (p : PomObj) :
    (setPom w r p).notices = w.notices := rfl

theorem notices_schedule (w : World) (d : Nat) (c : PendingCall) :
    (schedule w d c).notices = w.notices := rfl

/-- C8 (amended): `pomodoro_break` empties the captured participant dict in
place, announces the break length and the re-registration instructions,
moves the session flag to `"break"`, and schedules the end-of-break
closure after `break_minutes * 60` seconds — but it leaves the vote tally
unchanged: `_votes` is reset by `initialize_pomodoro` and
`pomodoro_start`, not at break entry (on every reachable state the tally
is empty at break entry anyway, so the difference is invisible there). -/
theorem c8_break_transition (w : World) (r : Nat) (name : String) (wk bk : Nat)
    (hmode : modes.lookup name = some (wk, bk)) (hr : r < w.poms.length) :
    ∃ w', pomodoro_break w r name = .ok w' ∧
      getDict w' (getPom w r).usersRef = [] ∧
      (getPom w' r).flag = .brk ∧
      (getPom w' r).votes = (getPom w r).votes ∧
      w'.pending = w.pending ++
        [{ fireAt := w.time + bk * 60,
           call := .endBreakCb r (getPom w r).usersRef name }] ∧
      w'.notices = w.notices ++
        [((getPom w r).channel, toString bk ++ " minute break."),
         ((getPom w r).channel,
          "Please register for the next pomodoro sometime between now and the next "
            ++ toString bk ++ " minutes.")] := by
  unfold pomodoro_break
  simp only [hmode]
  refine ⟨_, rfl, ?_, ?_, ?_, ?_, ?_⟩
  · rcases Nat.lt_or_ge (getPom w r).usersRef w.dicts.length with h | h
    · simp [getDict, schedule, setPom, setDict, notify, List.getElem?_set_self h]
    · simp [getDict, schedule, setPom, setDict, notify,
        List.set_eq_of_length_le h, List.getElem?_len_le h]
  · simp [getPom, schedule, setPom, setDict, notify, List.getElem?_set_self hr]
  · simp [getPom, schedule, setPom, setDict, notify, List.getElem?_set_self hr]
  · simp [schedule, setPom, setDict, notify]
  · simp [schedule, setPom, setDict, notify]

/-- Witness for the amended C8 on a concrete working-state world carrying a
(hand-injected) non-empty vote tally. -/
theorem c8_break_transition_witness :
    ∃ w', pomodoro_break w_c8 w_c8.table "fast" = .ok w' ∧
      getDict w' (getPom w_c8 w_c8.table).usersRef = [] ∧
      (getPom w' w_c8.table).flag = .brk ∧
      (getPom w' w_c8.table).votes = (getPom w_c8 w_c8.table).votes ∧
      w'.pending = w_c8.pending ++
        [{ fireAt := w_c8.time + 5 * 60,
           call := .endBreakCb w_c8.table (getPom w_c8 w_c8.table).usersRef "fast" }] ∧
      w'.notices = w_c8.notices ++
        [((getPom w_c8 w_c8.table).channel, toString 5 ++ " minute break."),
         ((getPom w_c8 w_c8.table).channel,
          "Please register for the next pomodoro sometime between now and the next "
            ++ toString 5 ++ " minutes.")] :=
  c8_break_transition w_c8 w_c8.table "fast" 25 5 rfl (by decide)

theorem votesEmpty_getPom {w : World} (h : votesEmpty w) (r : Nat) :
    (getPom w r).votes = [] := by
  unfold getPom
  cases hx : w.poms[r]? with
  | none => rfl
  | some p => exact h p (List.getElem?_mem hx)

theorem votesEmpty_of_poms_eq {w w' : World} (hp : w'.poms = w.poms)
    (h : votesEmpty w) : votesEmpty w' := by
  unfold votesEmpty at h ⊢
  rw [hp]
  exact h

theorem votesEmpty_notify {w : World} (t s : String) (h : votesEmpty w) :
    votesEmpty (notify w t s) :=
  votesEmpty_of_poms_eq rfl h

theorem votesEmpty_schedule {w : World} (d : Nat) (c : PendingCall) (h : votesEmpty w) :
    votesEmpty (schedule w d c) :=
  votesEmpty_of_poms_eq rfl h

theorem votesEmpty_setDict {w : World} (r : Nat) (d : UsersDict) (h : votesEmpty w) :
    votesEmpty (setDict w r d) :=
  votesEmpty_of_poms_eq rfl h

theorem votesEmpty_setPom {w : World} {r : Nat} {p : PomObj} (hp : p.votes = [])
    (h : votesEmpty w) : votesEmpty (setPom w r p) := by
  intro q hq
  simp only [setPom] at hq
  rcases List.mem_or_eq_of_mem_set hq with hq' | rfl
  · exact h q hq'
  · exact hp

theorem votesEmpty_init_pom {w : World} (r : Nat) (m : String) (d : Nat)
    (h : votesEmpty w) : votesEmpty (initialize_pomodoro w r m d) := by
  unfold initialize_pomodoro
  exact votesEmpty_schedule _ _ (votesEmpty_setPom rfl h)

theorem votesEmpty_pomodoro_start {w : World} (r : Nat) (m : String)
    (h : votesEmpty w) : votesEmpty (okWorld (pomodoro_start w r m)) := by
  unfold pomodoro_start
  cases hm : modes.lookup m with
  | none => simpa [okWorld] using h
  | some md =>
      simp only [okWorld]
      exact votesEmpty_schedule _ _ (votesEmpty_notify _ _ (votesEmpty_setPom rfl h))

theorem votesEmpty_pomodoro_break {w : World} (r : Nat) (m : String)
    (h : votesEmpty w) : votesEmpty (okWorld (pomodoro_break w r m)) := by
  unfold pomodoro_break
  cases hm : modes.lookup m with
  | none => simpa [okWorld] using h
  | some md =>
      simp only [okWorld]
      exact votesEmpty_schedule _ _
        (votesEmpty_setPom (votesEmpty_getPom h r)
          (votesEmpty_setDict _ _ (votesEmpty_notify _ _ (votesEmpty_notify _ _ h))))

theorem votesEmpty_break_callback {w : World} (r uref : Nat) (m : String)
    (h : votesEmpty w) : votesEmpty (okWorld (break_callback w r uref m)) := by
  unfold break_callback
  cases getDict w uref with
  | nil =>
      simp only [okWorld]
      exact votesEmpty_setPom (votesEmpty_getPom h r) h
  | cons a l => exact votesEmpty_pomodoro_start r m h

theorem votesEmpty_register_nick {w : World} (r : Nat) (nick goal : String)
    (h : votesEmpty w) : votesEmpty (okWorld (register_nick w r nick goal)) := by
  unfold register_nick
  by_cases hf : (getPom w r).flag ≠ SessionFlag.off
  · rw [if_pos hf]
    simp only [okWorld]
    exact votesEmpty_setDict _ _ h
  · rw [if_neg hf]
    simpa [okWorld] using h

theorem vote_keyError {w : World} (r : Nat) (m n : String) (h : votesEmpty w) :
    vote w r m n = .error (.keyError m, w) := by
  simp only [vote, votesEmpty_getPom h r, List.lookup]

theorem votesEmpty_do_pub_pomodoro {w : World} (nick marg : String)
    (h : votesEmpty w) : votesEmpty (okWorld (do_pub_pomodoro w nick marg)) := by
  have hdead : ¬(session_running w w.table = SessionFlag.brk ∧ votes_attr_truthy = false) := by
    simp [votes_attr_truthy]
  unfold do_pub_pomodoro
  rw [if_neg hdead]
  by_cases hb : session_running w w.table = SessionFlag.brk
  · rw [if_pos hb, vote_keyError w.table marg nick h]
    simpa [okWorld] using h
  · rw [if_neg hb]
    by_cases hwk : session_running w w.table = SessionFlag.work
    · rw [if_pos hwk]
      simp only [okWorld]
      exact votesEmpty_notify _ _ h
    · rw [if_neg hwk]
      cases hm : modes.lookup marg with
      | none =>
          simp only [okWorld]
          exact votesEmpty_init_pom _ _ _ h
      | some md =>
          simp only [okWorld]
          exact votesEmpty_notify _ _
            (votesEmpty_notify _ _ (votesEmpty_init_pom _ _ _ h))

theorem votesEmpty_do_pub_register {w : World} (nick : String) (args : List String)
    (h : votesEmpty w) : votesEmpty (okWorld (do_pub_register w nick args)) := by
  simp only [do_pub_register]
  by_cases hs : session_running w w.table ≠ SessionFlag.off
  case pos =>
    rw [if_pos hs]
    cases hreg : register_nick w w.table nick
        (args.foldl (fun g word => g ++ " " ++ word) "") with
    | error e =>
        obtain ⟨e1, e2⟩ := e
        have h2 := votesEmpty_register_nick w.table nick
          (args.foldl (fun g word => g ++ " " ++ word) "") h
        rw [hreg] at h2
        simpa [okWorld] using h2
    | ok w1 =>
        have h2 := votesEmpty_register_nick w.table nick
          (args.foldl (fun g word => g ++ " " ++ word) "") h
        rw [hreg] at h2
        simp only [okWorld] at h2 ⊢
        exact votesEmpty_notify _ _ h2
  case neg =>
    rw [if_neg hs]
    simp only [okWorld]
    exact votesEmpty_notify _ _ h

theorem votesEmpty_runCall {w : World} (c : PendingCall) (h : votesEmpty w) :
    votesEmpty (okWorld (runCall w c)) := by
  cases c with
  | startCb r m => exact votesEmpty_pomodoro_start r m h
  | breakCb r m => exact votesEmpty_pomodoro_break r m h
  | endBreakCb r u m => exact votesEmpty_break_callback r u m h

theorem votesEmpty_fireNext {w : World} (h : votesEmpty w) :
    votesEmpty (okWorld (fireNext w)) := by
  unfold fireNext
  cases takeEarliest w.pending with
  | none => simpa [okWorld] using h
  | some p =>
      obtain ⟨e, rest⟩ := p
      exact votesEmpty_runCall e.call h

theorem reachable_votesEmpty {w : World} (h : Reachable w) : votesEmpty w := by
  induction h with
  | init =>
      intro p hp
      rw [show initWorld.poms =
        [{ channel := "#test", usersRef := 0, flag := .off, votes := [], mode := none }]
        from rfl, List.mem_singleton] at hp
      rw [hp]
  | pom_ok nick marg hr heq ih =>
      have h2 := votesEmpty_do_pub_pomodoro nick marg ih
      rw [heq] at h2
      simpa [okWorld] using h2
  | pom_err nick marg hr heq ih =>
      have h2 := votesEmpty_do_pub_pomodoro nick marg ih
      rw [heq] at h2
      simpa [okWorld] using h2
  | reg_ok nick args hr heq ih =>
      have h2 := votesEmpty_do_pub_register nick args ih
      rw [heq] at h2
      simpa [okWorld] using h2
  | reg_err nick args hr heq ih =>
      have h2 := votesEmpty_do_pub_register nick args ih
      rw [heq] at h2
      simpa [okWorld] using h2
  | timer_ok hr heq ih =>
      have h2 := votesEmpty_fireNext ih
      rw [heq] at h2
      simpa [okWorld] using h2
  | timer_err hr heq ih =>
      have h2 := votesEmpty_fireNext ih
      rw [heq] at h2
      simpa [okWorld] using h2

/-- C10: in every reachable world the vote tally of every `Pomodoro`
instance is empty — the tally is reset by `initialize_pomodoro` and
`pomodoro_start`, `vote` only touches an already-present key (raising
`KeyError` otherwise) and no operation ever inserts one — hence `votes()`
is always falsy and every on-break `.pomodoro <mode>` command dies in
`vote` with a `KeyError`, leaving the world untouched: the
quorum-triggered session-replacement branch is unreachable. -/
theorem c10_vote_tally_always_empty {w : World} (h : Reachable w) :
    votesEmpty w ∧ (∀ r, votes w r = false) ∧
    ∀ nick marg, session_running w w.table = .brk →
      do_pub_pomodoro w nick marg = .error (.keyError marg, w) := by
  have hv := reachable_votesEmpty h
  refine ⟨hv, ?_, ?_⟩
  · intro r
    simp [votes, votesEmpty_getPom hv r]
  · intro nick marg hb
    have hdead : ¬(session_running w w.table = SessionFlag.brk ∧ votes_attr_truthy = false) := by
      simp [votes_attr_truthy]
    unfold do_pub_pomodoro
    rw [if_neg hdead, if_pos hb, vote_keyError w.table marg nick hv]

/-- Witness for C10 on the concrete reachable on-break world. -/
theorem c10_vote_tally_always_empty_witness :
    votesEmpty w_break ∧ votes w_break 0 = false ∧
    do_pub_pomodoro w_break "carol" "fast" = .error (.keyError "fast", w_break) := by
  have h1 : Reachable w_started := Reachable.pom_ok "alice" "fast" Reachable.init rfl
  have h2 : Reachable w_working := Reachable.timer_ok h1 rfl
  have h3 : Reachable w_break := Reachable.timer_ok h2 rfl
  have main := c10_vote_tally_always_empty h3
  exact ⟨main.1, main.2.1 0, main.2.2 "carol" "fast" rfl⟩
